import Mathlib

/-!
Verification of the SQL safety validator and read-only query gateway of the
data-insights application (Capstone-1): the query classifier
(`database/safety_validator.py`), the query executor and statistics
aggregator (`database/db_manager.py`), the tool dispatcher
(`agent/tools.py`), the bounded conversation loop (`agent/ai_agent.py`)
and the ticket integration (`support/github_integration.py`), shallowly
embedded as executable Lean definitions.  External collaborators (the
relational store, the language model, the ticket service) are modelled as
explicit oracles passed in as parameters, and the side effects on the
store are reified as event traces.
-/

/-! ## Query classifier (`SafetyValidator.validate_query`) -/

/-- `config.DANGEROUS_SQL_KEYWORDS`, in source order. -/
def DANGEROUS_SQL_KEYWORDS : List String :=
  ["DELETE", "DROP", "TRUNCATE", "ALTER", "UPDATE", "INSERT", "CREATE", "REPLACE"]

/-- A word character in the sense of the regex `\b` boundary (`[A-Za-z0-9_]`;
the keywords and the texts matched against are ASCII). -/
def isWordChar (c : Char) : Bool := c.isAlphanum || c = '_'

/-- One step of the whole-word scan: `prev` is the character immediately
before the current position (`none` at the start of the text). -/
def containsWordAux (kw : List Char) (prev : Option Char) : List Char → Bool
  | [] => false
  | c :: rest =>
    (kw.isPrefixOf (c :: rest) &&
      (match prev with | none => true | some p => !isWordChar p) &&
      (match (c :: rest).drop kw.length with
       | [] => true
       | d :: _ => !isWordChar d)) ||
    containsWordAux kw (some c) rest

/-- `re.search(r'\b' + kw + r'\b', s)` for a keyword made of word
characters: `kw` occurs in `s` with no word character on either side. -/
def containsWord (kw : List Char) (s : List Char) : Bool :=
  containsWordAux kw none s

/-- Plain (not word-bounded) substring occurrence of `k` in the second list. -/
def containsSeq (k : List Char) : List Char → Bool
  | [] => k.isEmpty
  | c :: rest => k.isPrefixOf (c :: rest) || containsSeq k rest

/-- Does a `;` occur in `s` with one of `kws` occurring (as a plain
substring) somewhere after it?  This is `re.search(r';.*?(K1|K2|...)', s)`
with `re.DOTALL`. -/
def semicolonThen (kws : List (List Char)) : List Char → Bool
  | [] => false
  | c :: rest =>
    (c = ';' && kws.any (fun k => containsSeq k rest)) || semicolonThen kws rest

/-- `re.search(r'/\*.*?\*/', s)` with `re.DOTALL`: an occurrence of `/*`
followed, somewhere later, by `*/`. -/
def containsBlockComment : List Char → Bool
  | [] => false
  | '/' :: '*' :: b => containsSeq ['*', '/'] b || containsBlockComment ('*' :: b)
  | _ :: rest => containsBlockComment rest

/-- Python `str.strip()`: remove leading and trailing whitespace. -/
def stripChars (s : List Char) : List Char :=
  ((s.dropWhile Char.isWhitespace).reverse.dropWhile Char.isWhitespace).reverse

/-- `query.strip().upper()` — the normalized query every check runs on. -/
def normalizeQuery (q : String) : List Char :=
  (stripChars q.data).map Char.toUpper

/-- The keywords of the injection pattern `r';.*?(DELETE|DROP|UPDATE|INSERT)'`
in `safety_validator.py` — only four of the eight denylist keywords. -/
def injectionKeywords : List String := ["DELETE", "DROP", "UPDATE", "INSERT"]

/-- The disjunction of the three `suspicious_patterns` regexes, evaluated on
the normalized query (all three produce the same rejection message). -/
def suspiciousHit (nq : List Char) : Bool :=
  semicolonThen (injectionKeywords.map String.data) nq ||
  containsSeq ['-', '-'] nq ||
  containsBlockComment nq

def emptyQueryMsg : String := "Empty query provided"

def dangerPre : String := "🚫 BLOCKED: Query contains dangerous operation \x27"

def dangerPost : String := "\x27. Only SELECT queries are allowed for safety reasons."

/-- The f-string rejection message of the dangerous-keyword branch. -/
def blockedKeywordMsg (kw : String) : String := dangerPre ++ kw ++ dangerPost

def onlySelectMsg : String :=
  "🚫 BLOCKED: Only SELECT queries are allowed. This application is read-only to prevent accidental data modification."

def suspiciousMsg : String :=
  "🚫 BLOCKED: Query contains suspicious patterns that may indicate SQL injection or multiple statements. Please use simple SELECT queries."

/-- `SafetyValidator.validate_query`: returns `(is_valid, error_message)`. -/
def validate_query (q : String) : Bool × String :=
  let stripped := stripChars q.data
  if stripped.isEmpty then
    (false, emptyQueryMsg)
  else
    let nq := stripped.map Char.toUpper
    match DANGEROUS_SQL_KEYWORDS.find? (fun kw => containsWord kw.data nq) with
    | some kw => (false, blockedKeywordMsg kw)
    | none =>
      if !("SELECT".data.isPrefixOf nq) then
        (false, onlySelectMsg)
      else if suspiciousHit nq then
        (false, suspiciousMsg)
      else
        (true, "")

example : (validate_query "SELECT * FROM cars WHERE make = BMW").1 = true := by decide

example : (validate_query "delete from cars").2 = blockedKeywordMsg "DELETE" := by decide

example : (validate_query "SHOW TABLES").2 = onlySelectMsg := by decide

example : (validate_query "SELECT * FROM cars; DELETE FROM cars").2 = blockedKeywordMsg "DELETE" := by decide

example : (validate_query "SELECT x FROM t; DELETED").2 = suspiciousMsg := by decide

example : (validate_query "   ").2 = emptyQueryMsg := by decide

/-- All three of the first checks pass: the stripped text is nonempty, no
denylist keyword occurs as a whole word, and the normalized text starts
with `SELECT`. -/
def passesFirstChecks (q : String) : Bool :=
  !(stripChars q.data).isEmpty &&
  DANGEROUS_SQL_KEYWORDS.all (fun kw => !containsWord kw.data (normalizeQuery q)) &&
  "SELECT".data.isPrefixOf (normalizeQuery q)

/-- A `;` followed eventually by one of the eight denylist keywords — the
reading of "statement separator followed eventually by a mutating keyword"
in which "mutating keyword" is the full denylist. -/
def mutatingAfterSemicolon (nq : List Char) : Bool :=
  semicolonThen (DANGEROUS_SQL_KEYWORDS.map String.data) nq

/-- Claim C3 as stated, at one statement text: if the text passes the empty,
keyword and SELECT-prefix checks, then it is rejected with the
suspicious-pattern reason exactly when it contains `;` followed eventually
by a mutating (denylist) keyword, a `--` marker, or a `/* */` comment. -/
def claimC3Statement (q : String) : Prop :=
  passesFirstChecks q = true →
    (validate_query q = (false, suspiciousMsg) ↔
      (mutatingAfterSemicolon (normalizeQuery q) ||
       containsSeq ['-', '-'] (normalizeQuery q) ||
       containsBlockComment (normalizeQuery q)) = true)

/-! ## Query executor (`DatabaseManager.execute_query`) -/

/-- One result row, as `dict(row)`: an ordered mapping column name → value. -/
abbrev Row := List (String × Int)

/-- The `execute_query` result dictionary. -/
structure QueryResult where
  success : Bool
  data : Option (List Row)
  error : Option String
  row_count : Nat
deriving DecidableEq, Repr

/-- The rows carried by a result (`None` carries no rows). -/
def rowsOf (r : QueryResult) : List Row := r.data.getD []

/-- Observable interactions of the gateway: a (pure) validator call, and
the store calls `sqlite3.connect`, `cursor.execute`, `conn.close`. -/
inductive Event where
  | validate (q : String)
  | connect
  | execute (q : String)
  | close
deriving DecidableEq, Repr

/-- Store calls are everything except the pure validator call. -/
def isStoreEvent : Event → Bool
  | .validate _ => false
  | _ => true

def isValidateEvent : Event → Bool
  | .validate _ => true
  | _ => false

/-- The relational store collaborator: executing a statement either yields
its rows or raises (modelled as `Except.error` with the engine message). -/
structure StoreModel where
  run : String → Except String (List Row)

/-- `DatabaseManager.execute_query`, with the store passed explicitly and
its side effects reified as the returned event trace.  On a rejected
statement nothing touches the store; on an execution fault the `except`
branch returns the error dictionary — and the trace shows that no
`close` happens on that path (there is no `finally`). -/
def execute_query (store : StoreModel) (q : String) : QueryResult × List Event :=
  let v := validate_query q
  if v.1 then
    match store.run q with
    | .ok rows =>
        ({ success := true, data := some rows, error := none, row_count := rows.length },
         [Event.validate q, Event.connect, Event.execute q, Event.close])
    | .error e =>
        ({ success := false, data := none, error := some ("Database error: " ++ e), row_count := 0 },
         [Event.validate q, Event.connect, Event.execute q])
  else
    ({ success := false, data := none, error := some v.2, row_count := 0 },
     [Event.validate q])

/-- A store whose every execution raises. -/
def errStore : StoreModel := ⟨fun _ => .error "no such table: cars"⟩

/-- A store whose every execution returns one single-column row. -/
def okStore : StoreModel := ⟨fun _ => .ok [[("make", 1)]]⟩

/-! ## Statistics aggregator (`DatabaseManager.get_statistics`) -/

def qCount : String := "SELECT COUNT(*) FROM cars"

def qPrice : String := "\n                SELECT \n                    AVG(sellingprice) as avg_price,\n                    MIN(sellingprice) as min_price,\n                    MAX(sellingprice) as max_price\n                FROM cars\n                WHERE sellingprice IS NOT NULL AND sellingprice > 0\n            "

def qTopMakes : String := "\n                SELECT make, COUNT(*) as count\n                FROM cars\n                GROUP BY make\n                ORDER BY count DESC\n                LIMIT 5\n            "

def qTopModels : String := "\n                SELECT model, COUNT(*) as count\n                FROM cars\n                GROUP BY model\n                ORDER BY count DESC\n                LIMIT 5\n            "

def qCondition : String := "\n                SELECT condition, COUNT(*) as count\n                FROM cars\n                WHERE condition IS NOT NULL\n                GROUP BY condition\n                ORDER BY count DESC\n            "

def qYearRange : String := "SELECT MIN(year), MAX(year) FROM cars"

/-- How a sub-query's rows are consumed: `fetchone()[i]` (raises on an
empty result, since `fetchone()` returns `None`) or `fetchall()`. -/
inductive FetchMode where
  | one
  | all
deriving DecidableEq, Repr

/-- One sub-query of the statistics battery: its text, how its rows are
fetched, and the snapshot keys its result populates. -/
structure StatStep where
  query : String
  mode : FetchMode
  keys : List String
deriving DecidableEq, Repr

/-- The fixed battery run by `get_statistics`, in source order. -/
def statsSteps : List StatStep :=
  [ { query := qCount, mode := .one, keys := ["total_records"] },
    { query := qPrice, mode := .one, keys := ["avg_price", "min_price", "max_price"] },
    { query := qTopMakes, mode := .all, keys := ["top_makes"] },
    { query := qTopModels, mode := .all, keys := ["top_models"] },
    { query := qCondition, mode := .all, keys := ["condition_distribution"] },
    { query := qYearRange, mode := .one, keys := ["year_range"] } ]

/-- Does this sub-query raise when run against `store`?  Either the store
itself raises, or a `fetchone()` query returns no row and the subscript
on `None` raises. -/
def stepFails (store : StoreModel) (st : StatStep) : Bool :=
  match store.run st.query with
  | .error _ => true
  | .ok rows => match st.mode with
    | .one => rows.isEmpty
    | .all => false

/-- The rows a non-raising sub-query yields. -/
def stepRows (store : StoreModel) (st : StatStep) : List Row :=
  match store.run st.query with
  | .error _ => []
  | .ok rows => rows

/-- Run the battery in order.  The first raising sub-query aborts the whole
computation (`none`, the `except` branch); otherwise each step appends its
keys (valued by the rows they are derived from) to the snapshot. -/
def runStats (store : StoreModel) : List StatStep → Option (List (String × List Row)) × List Event
  | [] => (some [], [])
  | st :: rest =>
    if stepFails store st then
      (none, [Event.execute st.query])
    else
      ((runStats store rest).1.map
         (fun m => st.keys.map (fun k => (k, stepRows store st)) ++ m),
       Event.execute st.query :: (runStats store rest).2)

/-- `DatabaseManager.get_statistics`: opens its own connection and runs the
battery directly on a cursor — it never goes through `execute_query` or the
validator, so the trace contains no `validate` events.  Any exception
yields the empty dictionary (and, as in the source, no `close`). -/
def get_statistics (store : StoreModel) : List (String × List Row) × List Event :=
  match (runStats store statsSteps).1 with
  | none => ([], Event.connect :: (runStats store statsSteps).2)
  | some m => (m, Event.connect :: ((runStats store statsSteps).2 ++ [Event.close]))

/-- The snapshot keys in the order the source populates them. -/
def statKeys : List String :=
  ["total_records", "avg_price", "min_price", "max_price",
   "top_makes", "top_models", "condition_distribution", "year_range"]

/-- A store on which every sub-query raises. -/
def failStore : StoreModel := ⟨fun _ => .error "database is locked"⟩

example : (get_statistics failStore).1 = [] := by decide

example : (get_statistics okStore).1.map Prod.fst = statKeys := by decide

/-- Claim C5 as stated, at one store: every sub-query the aggregator
executes goes through the same pathway as ad hoc queries, i.e. the
validator is consulted for it (its `validate` event is in the trace). -/
def claimC5Statement (store : StoreModel) : Prop :=
  ∀ q, Event.execute q ∈ (get_statistics store).2 →
    Event.validate q ∈ (get_statistics store).2

/-! ## Tool dispatcher (`AgentTools`) -/

/-- `chart_config` as built by `_generate_chart`. -/
structure ChartConfig where
  type : String
  title : String
  x_label : String
  y_label : String
  data : List Row
deriving DecidableEq, Repr

/-- The uniform tool-result dictionary.  Each Python handler returns a dict
with a different key set; a key that a handler does not set is `none`. -/
structure Envelope where
  success : Bool
  message : Option String := none
  data : Option (List Row) := none
  row_count : Option Nat := none
  truncated : Option Bool := none
  error : Option String := none
  is_chart : Option Bool := none
  chart_config : Option ChartConfig := none
  ticket_id : Option String := none
  title : Option String := none
  priority : Option String := none
  note : Option String := none
  labels : Option (List String) := none
  issue_number : Option Nat := none
  issue_url : Option String := none
deriving DecidableEq, Repr

/-- `AgentTools._query_database`: delegates to `execute_query` and clips
results beyond 100 rows, always reporting the true row count. -/
def query_database (store : StoreModel) (sql_query : String) : Envelope × List Event :=
  let result := (execute_query store sql_query).1
  let evs := (execute_query store sql_query).2
  if result.success then
    let data := rowsOf result
    if data.length > 100 then
      ({ success := true,
         message := some ("Query returned " ++ toString data.length ++ " rows (showing first 100)"),
         data := some (data.take 100),
         row_count := some data.length,
         truncated := some true }, evs)
    else
      ({ success := true,
         message := some ("Query returned " ++ toString data.length ++ " rows"),
         data := some data,
         row_count := some data.length,
         truncated := some false }, evs)
  else
    ({ success := false, error := result.error }, evs)

/-- `AgentTools._generate_chart`: runs the query through `_query_database`
(so its data is the already-truncated payload) and wraps it in a chart
envelope.  A result row always has at least one column, so `cols[0]` and
`cols[1]` are modelled with total lookups. -/
def generate_chart (store : StoreModel) (sql_query chart_type title : String)
    (x_label y_label : Option String) : Envelope × List Event :=
  let query_result := (query_database store sql_query).1
  let evs := (query_database store sql_query).2
  if query_result.success then
    match query_result.data.getD [] with
    | [] => ({ success := false, error := some "Query returned no data for the chart." }, evs)
    | row0 :: rest =>
      let cols := row0.map Prod.fst
      let x_axis := match x_label with
        | some x => if cols.contains x then x else cols.headD ""
        | none => cols.headD ""
      let y_axis := match y_label with
        | some y => if cols.contains y then y
                    else if cols.length > 1 then cols.getD 1 "" else cols.headD ""
        | none => if cols.length > 1 then cols.getD 1 "" else cols.headD ""
      ({ success := true,
         is_chart := some true,
         chart_config := some { type := chart_type, title := title,
                                x_label := x_axis, y_label := y_axis,
                                data := row0 :: rest },
         message := some ("Successfully generated " ++ chart_type ++ " chart: " ++ title) }, evs)
  else
    (query_result, evs)

/-- A store whose every execution returns 150 identical one-column rows. -/
def store150 : StoreModel := ⟨fun _ => .ok (List.replicate 150 [("c", 1)])⟩

/-- The chart configuration produced for `store150` with inferred axes. -/
def cfgW : ChartConfig :=
  { type := "bar", title := "T", x_label := "c", y_label := "c",
    data := List.replicate 100 [("c", 1)] }

/-! ## Ticket integration (`GitHubSupport` and `_create_support_ticket`) -/

/-- What `repo.create_issue` does when actually called: returns the issue
(number and URL), raises a `GithubException`, or raises something else. -/
inductive GhOutcome where
  | ok (number : Nat) (html_url : String)
  | apiError (msg : String)
  | otherError (msg : String)
deriving DecidableEq, Repr

/-- The ticket collaborator: `configured` is `is_configured()` (both the
client and the repo were successfully initialized), `folder` is
`self.folder` (`""` when unset), `createOutcome` scripts the creation
call, and `randomId` is the draw of `random.randint(1000, 9999)` used by
the mock path. -/
structure TicketCollaborator where
  configured : Bool
  folder : String
  createOutcome : GhOutcome
  randomId : Nat
deriving DecidableEq, Repr

/-- `GitHubSupport.is_configured`. -/
def is_configured (gh : TicketCollaborator) : Bool := gh.configured

/-- `self.folder.lower().replace("/", "-").replace(" ", "-")`. -/
def folderLabel (folder : String) : String :=
  String.mk (folder.data.map (fun c =>
    let lc := c.toLower
    if lc = '/' || lc = ' ' then '-' else lc))

/-- `GitHubSupport._create_mock_ticket`. -/
def create_mock_ticket (gh : TicketCollaborator) (title : String) (labels : List String) :
    Envelope :=
  { success := true,
    message := some "Support ticket created (Mock Mode - GitHub not configured)",
    ticket_id := some ("MOCK-" ++ toString gh.randomId),
    title := some title,
    labels := some labels,
    note := some "To enable real GitHub integration, set GITHUB_TOKEN and GITHUB_REPO in your .env file" }

/-- `GitHubSupport.create_issue`: unconfigured → mock ticket; configured →
the creation call, with both exception branches caught and turned into
`success=false` envelopes. -/
def create_issue (gh : TicketCollaborator) (title body : String) (labels : List String) :
    Envelope :=
  if !(is_configured gh) then
    create_mock_ticket gh title labels
  else
    let prefixed_title := if gh.folder ≠ "" then "[" ++ gh.folder ++ "] " ++ title else title
    let issue_labels :=
      (if gh.folder ≠ "" then [folderLabel gh.folder] else []) ++ ["customer-support"]
    let issue_labels := labels.foldl (fun acc l => if acc.contains l then acc else acc ++ [l]) issue_labels
    match gh.createOutcome with
    | .ok n url =>
        { success := true,
          message := some ("Ticket created successfully! Ticket ID: #" ++ toString n),
          issue_number := some n,
          issue_url := some url,
          title := some prefixed_title,
          labels := some issue_labels }
    | .apiError m =>
        { success := false, error := some ("GitHub API error: " ++ m) }
    | .otherError m =>
        { success := false, error := some ("Error creating issue: " ++ m) }

/-- `AgentTools._create_support_ticket`: `github_support` is `None` when no
collaborator was injected at all. -/
def create_support_ticket (github_support : Option TicketCollaborator)
    (title description priority : String) : Envelope :=
  match github_support with
  | some gh => create_issue gh title description ["support", "priority-" ++ priority]
  | none =>
      { success := true,
        message := some "Support ticket created (mock mode - GitHub not configured)",
        ticket_id := some "MOCK-001",
        title := some title,
        priority := some priority }

/-- The collaborator is unreachable or unconfigured: absent, reporting
`is_configured() == false`, or raising on the creation call. -/
def unreachableOrUnconfigured (gh : Option TicketCollaborator) : Bool :=
  match gh with
  | none => true
  | some g => !g.configured || (match g.createOutcome with | .ok _ _ => false | _ => true)

/-- The collaborator is absent or reports `is_configured() == false`. -/
def notConfigured (gh : Option TicketCollaborator) : Bool :=
  match gh with
  | none => true
  | some g => !g.configured

/-- Claim C9 as stated, at one invocation: an unreachable-or-unconfigured
collaborator still yields a `success=true` envelope carrying a synthesized
identifier. -/
def claimC9Statement (gh : Option TicketCollaborator) (title description priority : String) :
    Prop :=
  unreachableOrUnconfigured gh = true →
    (create_support_ticket gh title description priority).success = true ∧
    ((create_support_ticket gh title description priority).ticket_id).isSome = true

/-- A configured collaborator whose creation call raises (the service is
reachable at initialization but unreachable at call time). -/
def unreachableCollaborator : TicketCollaborator :=
  { configured := true, folder := "", createOutcome := .otherError "Connection refused", randomId := 1234 }

/-! ## Conversation loop (`AIAgent._get_ai_response`) -/

/-- One requested tool call (`id`, `function.name`, `function.arguments`). -/
structure ToolCall where
  id : String
  name : String
  arguments : String
deriving DecidableEq, Repr

/-- One model response: optional text content plus the (possibly empty)
list of requested tool calls; `tool_calls = []` models both `None` and an
empty list, which Python treats identically (falsy). -/
structure ModelMessage where
  content : Option String
  tool_calls : List ToolCall
deriving DecidableEq, Repr

/-- What `chat`/`_get_ai_response` returns for one user turn. -/
structure ChatOutcome where
  content : String
  chart : Option ChartConfig
deriving DecidableEq, Repr

def fallbackMessage : String :=
  "I apologize, but I\x27m having trouble processing your request. Would you like me to create a support ticket for human assistance?"

def noResponseMessage : String := "I apologize, but I couldn\x27t generate a response."

/-- Executing the tool calls of one model turn, keeping the last chart seen:
`if result.get(\x27is_chart\x27): last_chart = result.get(\x27chart_config\x27)`. -/
def chartUpdate (toolExec : ToolCall → Envelope) (lastChart : Option ChartConfig)
    (calls : List ToolCall) : Option ChartConfig :=
  calls.foldl (fun acc tc =>
    let r := toolExec tc
    if r.is_chart = some true then r.chart_config else acc) lastChart

/-- The body of the `while iteration < max_iterations` loop.  `script i` is
the language-model collaborator\x27s response to the (i+1)-th model call of
this turn; the second component counts model calls made. -/
def getAiResponseAux (script : Nat → ModelMessage) (toolExec : ToolCall → Envelope) :
    Nat → Nat → Option ChartConfig → ChatOutcome × Nat
  | 0, callsMade, _ => ({ content := fallbackMessage, chart := none }, callsMade)
  | fuel + 1, callsMade, lastChart =>
    let message := script callsMade
    if message.tool_calls.isEmpty then
      let finalResponse := match message.content with
        | some s => if s = "" then noResponseMessage else s
        | none => noResponseMessage
      ({ content := finalResponse, chart := lastChart }, callsMade + 1)
    else
      getAiResponseAux script toolExec fuel (callsMade + 1)
        (chartUpdate toolExec lastChart message.tool_calls)

/-- `AIAgent._get_ai_response` with its iteration bound (default 5 in the
source). -/
def get_ai_response (script : Nat → ModelMessage) (toolExec : ToolCall → Envelope)
    (max_iterations : Nat) : ChatOutcome × Nat :=
  getAiResponseAux script toolExec max_iterations 0 none

/-- A scripted model that requests a tool call on every response. -/
def alwaysToolScript : Nat → ModelMessage :=
  fun _ => { content := none, tool_calls := [{ id := "1", name := "query_database", arguments := "" }] }

/-- A dispatcher stub whose every result is a plain failure envelope. -/
def nullToolExec : ToolCall → Envelope :=
  fun tc => { success := false, error := some ("Unknown tool: " ++ tc.name) }

example : (get_ai_response alwaysToolScript nullToolExec 5).2 = 5 := by decide

example : (get_ai_response alwaysToolScript nullToolExec 5).1.content = fallbackMessage := by decide

/-! ## Theorems -/

lemma containsWord_nil (kw : List Char) : containsWord kw [] = false := rfl

lemma normalizeQuery_eq (q : String) :
    normalizeQuery q = (stripChars q.data).map Char.toUpper := rfl

/-- C1: every statement text containing a denylist keyword (`DELETE, DROP,
TRUNCATE, ALTER, UPDATE, INSERT, CREATE, REPLACE`) as a whole word, in any
letter case (i.e. as a whole word of the case-normalized text), is
rejected by `validate_query`, and the rejection reason embeds the matched
keyword between the fixed message prefix and suffix. -/
theorem C1_keyword_denylist_rejects (q : String)
    (h : ∃ kw ∈ DANGEROUS_SQL_KEYWORDS, containsWord kw.data (normalizeQuery q) = true) :
    (validate_query q).1 = false ∧
    ∃ kw ∈ DANGEROUS_SQL_KEYWORDS,
      containsWord kw.data (normalizeQuery q) = true ∧
      (validate_query q).2 = dangerPre ++ kw ++ dangerPost := by
  obtain ⟨kw, hmem, hkw⟩ := h
  have hne : (stripChars q.data).isEmpty = false := by
    cases hs : stripChars q.data with
    | nil =>
      exfalso
      rw [normalizeQuery_eq, hs] at hkw
      simp [containsWord_nil] at hkw
    | cons a l => rfl
  have hfind :
      DANGEROUS_SQL_KEYWORDS.find?
        (fun kw => containsWord kw.data ((stripChars q.data).map Char.toUpper)) ≠ none := by
    intro hnone
    have hall := List.find?_eq_none.mp hnone kw hmem
    rw [normalizeQuery_eq] at hkw
    simp [hkw] at hall
  obtain ⟨kw0, hkw0⟩ := Option.ne_none_iff_exists'.mp hfind
  have hmem0 := List.mem_of_find?_eq_some hkw0
  have hp0 := List.find?_some hkw0
  have hval : validate_query q = (false, blockedKeywordMsg kw0) := by
    simp only [validate_query, hne, Bool.false_eq_true, if_false, hkw0]
  refine ⟨by rw [hval], kw0, hmem0, ?_, ?_⟩
  · rw [normalizeQuery_eq]; exact hp0
  · rw [hval, blockedKeywordMsg]

/-- C1 witness: the lowercased statement `delete from cars` satisfies the
hypothesis and the conclusion at the keyword `DELETE`. -/
theorem C1_keyword_denylist_rejects_witness :
    (∃ kw ∈ DANGEROUS_SQL_KEYWORDS,
        containsWord kw.data (normalizeQuery "delete from cars") = true) ∧
    ((validate_query "delete from cars").1 = false ∧
     ∃ kw ∈ DANGEROUS_SQL_KEYWORDS,
       containsWord kw.data (normalizeQuery "delete from cars") = true ∧
       (validate_query "delete from cars").2 = dangerPre ++ kw ++ dangerPost) :=
  ⟨by decide, C1_keyword_denylist_rejects "delete from cars" (by decide)⟩

/-- C2: on any statement the classifier rejects, `execute_query` (which
re-runs the validator itself on every call, for every store) returns the
failure result carrying the classifier reason, no rows and a zero row
count, and its trace is the validator call alone — the store receives
zero calls. -/
theorem C2_rejected_query_never_executes (store : StoreModel) (q : String)
    (h : (validate_query q).1 = false) :
    (execute_query store q).1 =
      { success := false, data := none, error := some (validate_query q).2, row_count := 0 } ∧
    rowsOf (execute_query store q).1 = [] ∧
    (execute_query store q).2 = [Event.validate q] ∧
    ((execute_query store q).2.filter isStoreEvent) = [] := by
  have hx : execute_query store q =
      ({ success := false, data := none, error := some (validate_query q).2, row_count := 0 },
       [Event.validate q]) := by
    simp only [execute_query, h, Bool.false_eq_true, if_false]
  rw [hx]
  exact ⟨rfl, rfl, rfl, rfl⟩

/-- C2 witness: the rejected statement `DROP TABLE cars` against a store
stub, which receives zero calls. -/
theorem C2_rejected_query_never_executes_witness :
    (validate_query "DROP TABLE cars").1 = false ∧
    ((execute_query errStore "DROP TABLE cars").1 =
       { success := false, data := none,
         error := some (validate_query "DROP TABLE cars").2, row_count := 0 } ∧
     rowsOf (execute_query errStore "DROP TABLE cars").1 = [] ∧
     (execute_query errStore "DROP TABLE cars").2 = [Event.validate "DROP TABLE cars"] ∧
     ((execute_query errStore "DROP TABLE cars").2.filter isStoreEvent) = []) :=
  ⟨by decide, C2_rejected_query_never_executes errStore "DROP TABLE cars" (by decide)⟩

/-- C3 counterexample: `SELECT A FROM T; ALTERB` passes the first three
checks and contains `;` followed eventually by the mutating keyword
`ALTER`, yet `validate_query` accepts it — the injection pattern of the
source only watches for `DELETE`, `DROP`, `UPDATE` and `INSERT`. -/
theorem C3_suspicious_pattern_counterexample :
    ¬ claimC3Statement "SELECT A FROM T; ALTERB" := by
  unfold claimC3Statement
  decide

/-- C3 amended: for texts passing the empty, keyword and SELECT-prefix
checks, `validate_query` rejects with the suspicious-pattern reason
exactly when the normalized text contains `;` followed eventually by one
of `DELETE`, `DROP`, `UPDATE`, `INSERT` (not the full denylist), a `--`
marker, or a `/* */` comment; and `SELECT * FROM cars; DELETE FROM cars`
is rejected (by the earlier whole-word keyword check). -/
theorem C3_suspicious_pattern_amended :
    (∀ q, passesFirstChecks q = true →
      (validate_query q = (false, suspiciousMsg) ↔
        suspiciousHit (normalizeQuery q) = true)) ∧
    (validate_query "SELECT * FROM cars; DELETE FROM cars").1 = false := by
  constructor
  · intro q h
    simp only [passesFirstChecks, Bool.and_eq_true] at h
    obtain ⟨⟨h1', h2⟩, h3⟩ := h
    have h1 : (stripChars q.data).isEmpty = false := by simpa using h1'
    rw [normalizeQuery_eq] at h3
    have hfind :
        DANGEROUS_SQL_KEYWORDS.find?
          (fun kw => containsWord kw.data ((stripChars q.data).map Char.toUpper)) = none := by
      refine List.find?_eq_none.mpr (fun kw hm => ?_)
      have hkw := List.all_eq_true.mp h2 kw hm
      rw [normalizeQuery_eq] at hkw
      simpa using hkw
    simp only [validate_query, h1, Bool.false_eq_true, if_false, hfind, h3,
      Bool.not_true, normalizeQuery_eq]
    cases hs : suspiciousHit ((stripChars q.data).map Char.toUpper) <;> simp [hs]
  · decide

/-- C3 witness: `SELECT x FROM t; DELETED` passes the first checks, and is
rejected with the suspicious-pattern reason (the `;.*?DELETE` pattern has
no word boundary). -/
theorem C3_suspicious_pattern_amended_witness :
    passesFirstChecks "SELECT x FROM t; DELETED" = true ∧
    (validate_query "SELECT x FROM t; DELETED" = (false, suspiciousMsg) ↔
      suspiciousHit (normalizeQuery "SELECT x FROM t; DELETED") = true) :=
  ⟨by decide, C3_suspicious_pattern_amended.1 "SELECT x FROM t; DELETED" (by decide)⟩

/-- C4 (code bug): on an accepted statement whose execution raises, the
`except` branch of `execute_query` returns the failure result without
ever closing the connection — the trace opens one connection and closes
none, contradicting the close-on-every-exit-path requirement. -/
theorem C4_connection_not_closed_on_error :
    ((execute_query errStore "SELECT * FROM cars").1).success = false ∧
    (execute_query errStore "SELECT * FROM cars").2.count Event.connect = 1 ∧
    (execute_query errStore "SELECT * FROM cars").2.count Event.close = 0 := by decide

lemma runStats_none_of_fails (store : StoreModel) :
    ∀ steps : List StatStep, steps.any (stepFails store) = true →
      (runStats store steps).1 = none := by
  intro steps
  induction steps with
  | nil => intro h; simp at h
  | cons st rest ih =>
    intro h
    cases hf : stepFails store st with
    | true => simp [runStats, hf]
    | false =>
      have hr : rest.any (stepFails store) = true := by simpa [hf] using h
      simp [runStats, hf, ih hr]

lemma runStats_some_keys (store : StoreModel) :
    ∀ (steps : List StatStep) (m : List (String × List Row)),
      (runStats store steps).1 = some m →
      m.map Prod.fst = (steps.map StatStep.keys).flatten := by
  intro steps
  induction steps with
  | nil =>
    intro m hm
    simp [runStats] at hm
    simp [← hm]
  | cons st rest ih =>
    intro m hm
    cases hf : stepFails store st with
    | true => simp [runStats, hf] at hm
    | false =>
      simp only [runStats, hf, Bool.false_eq_true, if_false] at hm
      rcases Option.map_eq_some'.mp hm with ⟨m', hm', rfl⟩
      have h2 : (Prod.fst ∘ fun k : String => (k, stepRows store st)) = fun k => k := rfl
      simp [List.map_map, h2, ih m' hm']

lemma runStats_events (store : StoreModel) :
    ∀ steps : List StatStep, ∀ e ∈ (runStats store steps).2,
      ∃ st ∈ steps, e = Event.execute st.query := by
  intro steps
  induction steps with
  | nil => intro e he; simp [runStats] at he
  | cons st rest ih =>
    intro e he
    cases hf : stepFails store st with
    | true =>
      simp only [runStats, hf, if_true] at he
      exact ⟨st, List.mem_cons_self st rest, by simpa using he⟩
    | false =>
      simp only [runStats, hf, Bool.false_eq_true, if_false] at he
      rcases List.mem_cons.mp he with he | he
      · exact ⟨st, List.mem_cons_self st rest, he⟩
      · rcases ih e he with ⟨st', hst', he'⟩
        exact ⟨st', List.mem_cons_of_mem st hst', he'⟩

lemma get_statistics_events (store : StoreModel) :
    ∀ e ∈ (get_statistics store).2,
      e = Event.connect ∨ e = Event.close ∨ ∃ st ∈ statsSteps, e = Event.execute st.query := by
  intro e he
  unfold get_statistics at he
  cases hr : (runStats store statsSteps).1 with
  | none =>
    rw [hr] at he
    rcases List.mem_cons.mp he with he | he
    · exact Or.inl he
    · exact Or.inr (Or.inr (runStats_events store statsSteps e he))
  | some m =>
    rw [hr] at he
    rcases List.mem_cons.mp he with he | he
    · exact Or.inl he
    · rcases List.mem_append.mp he with he | he
      · exact Or.inr (Or.inr (runStats_events store statsSteps e he))
      · exact Or.inr (Or.inl (by simpa using he))

set_option maxRecDepth 8192 in
/-- C5 counterexample: against a store stub on which every sub-query
succeeds, the aggregator trace contains the execution of the count
sub-query but no validator call for it — statistics collection does not
go through `execute_query`. -/
theorem C5_statistics_bypass_counterexample : ¬ claimC5Statement okStore :=
  fun h => absurd (h qCount (by decide)) (by decide)

set_option maxRecDepth 8192 in
/-- C5 amended: `get_statistics` never consults the validator (its trace
holds no `validate` event, for any store) — it runs its fixed sub-queries
directly on its own connection — but every sub-query text it executes
would be accepted by the validator, so the queries themselves are
read-only SELECTs. -/
theorem C5_statistics_bypass_amended (store : StoreModel) :
    (get_statistics store).2.any isValidateEvent = false ∧
    (∀ q, Event.execute q ∈ (get_statistics store).2 → (validate_query q).1 = true) := by
  constructor
  · cases han : (get_statistics store).2.any isValidateEvent with
    | false => rfl
    | true =>
      exfalso
      obtain ⟨e, he, hpe⟩ := List.any_eq_true.mp han
      rcases get_statistics_events store e he with rfl | rfl | ⟨st, _, rfl⟩ <;>
        simp [isValidateEvent] at hpe
  · intro q hq
    rcases get_statistics_events store (Event.execute q) hq with h | h | ⟨st, hst, h⟩
    · exact absurd h (by simp)
    · exact absurd h (by simp)
    · have hq' : q = st.query := by simpa using h
      subst hq'
      revert hst
      simp only [statsSteps, List.mem_cons, List.not_mem_nil, or_false]
      rintro (rfl | rfl | rfl | rfl | rfl | rfl) <;> decide

set_option maxRecDepth 8192 in
/-- C5 amended witness: the count sub-query is executed by the aggregator
and is accepted by the validator. -/
theorem C5_statistics_bypass_amended_witness :
    (get_statistics okStore).2.any isValidateEvent = false ∧
    Event.execute qCount ∈ (get_statistics okStore).2 ∧
    (validate_query qCount).1 = true :=
  ⟨(C5_statistics_bypass_amended okStore).1, by decide,
   (C5_statistics_bypass_amended okStore).2 qCount (by decide)⟩

/-- C6: if any sub-query of the statistics battery raises against the
store, `get_statistics` returns the empty snapshot; and for every store
the snapshot is either empty or carries exactly the full key list — never
a partially filled mapping. -/
theorem C6_statistics_all_or_nothing :
    (∀ store : StoreModel, statsSteps.any (stepFails store) = true →
      (get_statistics store).1 = []) ∧
    (∀ store : StoreModel,
      (get_statistics store).1 = [] ∨ (get_statistics store).1.map Prod.fst = statKeys) := by
  constructor
  · intro store h
    have hn := runStats_none_of_fails store statsSteps h
    simp [get_statistics, hn]
  · intro store
    cases hr : (runStats store statsSteps).1 with
    | none => exact Or.inl (by simp [get_statistics, hr])
    | some m =>
      refine Or.inr ?_
      have hk := runStats_some_keys store statsSteps m hr
      have hj : (statsSteps.map StatStep.keys).flatten = statKeys := by decide
      simp [get_statistics, hr, hk, hj]

/-- C6 witness: a store on which every sub-query raises yields the empty
snapshot. -/
theorem C6_statistics_all_or_nothing_witness :
    statsSteps.any (stepFails failStore) = true ∧ (get_statistics failStore).1 = [] :=
  ⟨by decide, C6_statistics_all_or_nothing.1 failStore (by decide)⟩

/-- C7: on any successful query through the dispatcher, the envelope
reports the true row count; a result of more than 100 rows yields exactly
the first 100 rows with `truncated=true`, and a result of at most 100
rows is passed through whole with `truncated=false`. -/
theorem C7_query_truncation (store : StoreModel) (sql : String)
    (h : ((execute_query store sql).1).success = true) :
    ((query_database store sql).1).success = true ∧
    ((query_database store sql).1).row_count = some (rowsOf (execute_query store sql).1).length ∧
    ((rowsOf (execute_query store sql).1).length > 100 →
      ((query_database store sql).1).data = some ((rowsOf (execute_query store sql).1).take 100) ∧
      ((query_database store sql).1).truncated = some true) ∧
    ((rowsOf (execute_query store sql).1).length ≤ 100 →
      ((query_database store sql).1).data = some (rowsOf (execute_query store sql).1) ∧
      ((query_database store sql).1).truncated = some false) := by
  by_cases hl : (rowsOf (execute_query store sql).1).length > 100
  · have hqd : query_database store sql =
        ({ success := true,
           message := some ("Query returned " ++
             toString (rowsOf (execute_query store sql).1).length ++ " rows (showing first 100)"),
           data := some ((rowsOf (execute_query store sql).1).take 100),
           row_count := some (rowsOf (execute_query store sql).1).length,
           truncated := some true }, (execute_query store sql).2) := by
      simp only [query_database, h, eq_self_iff_true, if_true]
      rw [if_pos hl]
    rw [hqd]
    exact ⟨rfl, rfl, fun _ => ⟨rfl, rfl⟩, fun hle => absurd hl (by omega)⟩
  · have hqd : query_database store sql =
        ({ success := true,
           message := some ("Query returned " ++
             toString (rowsOf (execute_query store sql).1).length ++ " rows"),
           data := some (rowsOf (execute_query store sql).1),
           row_count := some (rowsOf (execute_query store sql).1).length,
           truncated := some false }, (execute_query store sql).2) := by
      simp only [query_database, h, eq_self_iff_true, if_true]
      rw [if_neg hl]
    rw [hqd]
    exact ⟨rfl, rfl, fun hgt => absurd hgt hl, fun _ => ⟨rfl, rfl⟩⟩

/-- C7 witness: a store returning 150 rows yields a payload of the first
100 rows, `truncated=true` and the true count 150. -/
theorem C7_query_truncation_witness :
    ((execute_query store150 "SELECT c FROM cars").1).success = true ∧
    (((query_database store150 "SELECT c FROM cars").1).success = true ∧
     ((query_database store150 "SELECT c FROM cars").1).row_count =
       some (rowsOf (execute_query store150 "SELECT c FROM cars").1).length ∧
     ((rowsOf (execute_query store150 "SELECT c FROM cars").1).length > 100 →
       ((query_database store150 "SELECT c FROM cars").1).data =
         some ((rowsOf (execute_query store150 "SELECT c FROM cars").1).take 100) ∧
       ((query_database store150 "SELECT c FROM cars").1).truncated = some true) ∧
     ((rowsOf (execute_query store150 "SELECT c FROM cars").1).length ≤ 100 →
       ((query_database store150 "SELECT c FROM cars").1).data =
         some (rowsOf (execute_query store150 "SELECT c FROM cars").1) ∧
       ((query_database store150 "SELECT c FROM cars").1).truncated = some false)) :=
  ⟨by decide, C7_query_truncation store150 "SELECT c FROM cars" (by decide)⟩

lemma getAiResponseAux_calls_le (script : Nat → ModelMessage) (toolExec : ToolCall → Envelope) :
    ∀ (fuel callsMade : Nat) (lastChart : Option ChartConfig),
      (getAiResponseAux script toolExec fuel callsMade lastChart).2 ≤ callsMade + fuel := by
  intro fuel
  induction fuel with
  | zero => intro c lc; simp [getAiResponseAux]
  | succ n ih =>
    intro c lc
    cases hE : (script c).tool_calls.isEmpty with
    | true =>
      simp [getAiResponseAux, hE]
    | false =>
      simp only [getAiResponseAux, hE, Bool.false_eq_true, if_false]
      have h2 := ih (c + 1) (chartUpdate toolExec lc (script c).tool_calls)
      omega

lemma getAiResponseAux_all_tools (script : Nat → ModelMessage) (toolExec : ToolCall → Envelope) :
    ∀ (fuel callsMade : Nat) (lastChart : Option ChartConfig),
      (∀ i, callsMade ≤ i → i < callsMade + fuel → (script i).tool_calls ≠ []) →
      getAiResponseAux script toolExec fuel callsMade lastChart =
        ({ content := fallbackMessage, chart := none }, callsMade + fuel) := by
  intro fuel
  induction fuel with
  | zero => intro c lc hall; simp [getAiResponseAux]
  | succ n ih =>
    intro c lc hall
    have hne : (script c).tool_calls ≠ [] := hall c (Nat.le_refl c) (by omega)
    have hE : (script c).tool_calls.isEmpty = false := by
      cases hcs : (script c).tool_calls with
      | nil => exact absurd hcs hne
      | cons a l => rfl
    simp only [getAiResponseAux, hE, Bool.false_eq_true, if_false]
    rw [ih (c + 1) (chartUpdate toolExec lc (script c).tool_calls)
      (fun i h1 h2 => hall i (by omega) (by omega))]
    have harith : c + 1 + n = c + (n + 1) := by omega
    rw [harith]

/-- C8: for every scripted sequence of model responses and every tool
dispatcher, the loop makes at most `max_iterations` model calls; and if
the model requests tool calls on every response up to the bound, the loop
returns the fixed fallback message (with no chart) after exactly
`max_iterations` model calls. -/
theorem C8_loop_bounded (script : Nat → ModelMessage) (toolExec : ToolCall → Envelope)
    (max_iterations : Nat) :
    (get_ai_response script toolExec max_iterations).2 ≤ max_iterations ∧
    ((∀ i, i < max_iterations → (script i).tool_calls ≠ []) →
      (get_ai_response script toolExec max_iterations).1 =
        { content := fallbackMessage, chart := none } ∧
      (get_ai_response script toolExec max_iterations).2 = max_iterations) := by
  constructor
  · have hle := getAiResponseAux_calls_le script toolExec max_iterations 0 none
    simpa [get_ai_response] using hle
  · intro hall
    have hfb := getAiResponseAux_all_tools script toolExec max_iterations 0 none
      (fun i h1 h2 => hall i (by omega))
    rw [get_ai_response, hfb]
    exact ⟨rfl, by simp⟩

/-- C8 witness: with the default bound of 5 and a model that always
requests a tool call, the loop makes exactly 5 model calls and returns
the fallback message. -/
theorem C8_loop_bounded_witness :
    (get_ai_response alwaysToolScript nullToolExec 5).2 ≤ 5 ∧
    ((get_ai_response alwaysToolScript nullToolExec 5).1 =
       { content := fallbackMessage, chart := none } ∧
     (get_ai_response alwaysToolScript nullToolExec 5).2 = 5) :=
  ⟨(C8_loop_bounded alwaysToolScript nullToolExec 5).1,
   (C8_loop_bounded alwaysToolScript nullToolExec 5).2 (by decide)⟩

/-- C9 counterexample: a collaborator that initialized successfully
(`is_configured() == true`) but whose creation call raises — i.e. the
service is unreachable at call time — produces a `success=false` error
envelope, not a `success=true` placeholder. -/
theorem C9_ticket_counterexample :
    ¬ claimC9Statement (some unreachableCollaborator) "Help needed" "User needs help" "medium" := by
  unfold claimC9Statement
  decide

/-- C9 amended: whenever the ticket collaborator is absent or reports
`is_configured() == false` (which covers a service unreachable at
initialization), the ticket capability returns a locally synthesized
placeholder envelope with `success=true` and a synthesized identifier; no
exception escapes on any path (the embedding is a total function, the
two exception handlers of the source producing `success=false`
envelopes when a configured creation call fails). -/
theorem C9_ticket_amended (gh : Option TicketCollaborator) (t d p : String)
    (h : notConfigured gh = true) :
    (create_support_ticket gh t d p).success = true ∧
    ((create_support_ticket gh t d p).ticket_id).isSome = true := by
  cases gh with
  | none => exact ⟨rfl, rfl⟩
  | some g =>
    have hc : g.configured = false := by simpa [notConfigured] using h
    simp [create_support_ticket, create_issue, is_configured, hc, create_mock_ticket]

/-- C9 amended witness: with no collaborator injected at all, the ticket
capability still reports success with the fixed mock identifier. -/
theorem C9_ticket_amended_witness :
    notConfigured none = true ∧
    ((create_support_ticket none "Help needed" "User needs help" "medium").success = true ∧
     ((create_support_ticket none "Help needed" "User needs help" "medium").ticket_id).isSome = true) :=
  ⟨by decide, C9_ticket_amended none "Help needed" "User needs help" "medium" (by decide)⟩

/-- C10: whenever the underlying query of a chart invocation succeeds, any
chart configuration the envelope carries holds exactly the first 100 rows
of the query result (hence at most 100 rows), and the chart envelope
itself carries no truncated flag. -/
theorem C10_chart_truncation (store : StoreModel) (sql ct t : String)
    (xl yl : Option String)
    (h : ((execute_query store sql).1).success = true) :
    ∀ cfg, ((generate_chart store sql ct t xl yl).1).chart_config = some cfg →
      cfg.data.length ≤ 100 ∧
      cfg.data = (rowsOf (execute_query store sql).1).take 100 ∧
      ((generate_chart store sql ct t xl yl).1).truncated = none := by
  intro cfg hcfg
  by_cases hl : (rowsOf (execute_query store sql).1).length > 100
  · have hqd : query_database store sql =
        ({ success := true,
           message := some ("Query returned " ++
             toString (rowsOf (execute_query store sql).1).length ++ " rows (showing first 100)"),
           data := some ((rowsOf (execute_query store sql).1).take 100),
           row_count := some (rowsOf (execute_query store sql).1).length,
           truncated := some true }, (execute_query store sql).2) := by
      simp only [query_database, h, eq_self_iff_true, if_true]
      rw [if_pos hl]
    rw [generate_chart, hqd] at hcfg ⊢
    cases hrows : (rowsOf (execute_query store sql).1).take 100 with
    | nil =>
      exfalso
      have hz : ((rowsOf (execute_query store sql).1).take 100).length = 0 := by
        rw [hrows]; rfl
      rw [List.length_take] at hz
      omega
    | cons r0 rest =>
      rw [hrows] at hcfg
      simp only [Option.getD_some, eq_self_iff_true, if_true, Option.some.injEq] at hcfg ⊢
      refine ⟨?_, ?_, trivial⟩
      · rw [← hcfg]
        have hlen : ((rowsOf (execute_query store sql).1).take 100).length ≤ 100 := by
          rw [List.length_take]; omega
        rw [hrows] at hlen
        exact hlen
      · rw [← hcfg]
  · have hle : (rowsOf (execute_query store sql).1).length ≤ 100 := by omega
    have htake : (rowsOf (execute_query store sql).1).take 100 =
        rowsOf (execute_query store sql).1 := List.take_of_length_le hle
    have hqd : query_database store sql =
        ({ success := true,
           message := some ("Query returned " ++
             toString (rowsOf (execute_query store sql).1).length ++ " rows"),
           data := some (rowsOf (execute_query store sql).1),
           row_count := some (rowsOf (execute_query store sql).1).length,
           truncated := some false }, (execute_query store sql).2) := by
      simp only [query_database, h, eq_self_iff_true, if_true]
      rw [if_neg hl]
    rw [generate_chart, hqd] at hcfg ⊢
    rw [htake]
    cases hrows : rowsOf (execute_query store sql).1 with
    | nil =>
      exfalso
      rw [hrows] at hcfg
      simp only [Option.getD_some, eq_self_iff_true, if_true] at hcfg
      exact Option.noConfusion hcfg
    | cons r0 rest =>
      rw [hrows] at hcfg
      simp only [Option.getD_some, eq_self_iff_true, if_true, Option.some.injEq] at hcfg ⊢
      refine ⟨?_, ?_, trivial⟩
      · rw [← hcfg]
        have hlen : (r0 :: rest).length = (rowsOf (execute_query store sql).1).length := by
          rw [hrows]
        rw [hlen]
        omega
      · rw [← hcfg]

set_option maxRecDepth 8192 in
/-- C10 witness: a chart over a 150-row query result embeds exactly the
first 100 rows and its envelope has no truncated flag. -/
theorem C10_chart_truncation_witness :
    ((execute_query store150 "SELECT c FROM cars").1).success = true ∧
    ((generate_chart store150 "SELECT c FROM cars" "bar" "T" none none).1).chart_config =
      some cfgW ∧
    (cfgW.data.length ≤ 100 ∧
     cfgW.data = (rowsOf (execute_query store150 "SELECT c FROM cars").1).take 100 ∧
     ((generate_chart store150 "SELECT c FROM cars" "bar" "T" none none).1).truncated = none) :=
  ⟨by decide, by decide,
   C10_chart_truncation store150 "SELECT c FROM cars" "bar" "T" none none (by decide) cfgW
     (by decide)⟩
